import Mathlib

/-!
Verification development for the `fitness.py` personal fitness/nutrition
tracker.  Calendar dates are embedded as integers counting days since
1970-01-01 (so Python's `date.weekday()` for day number `d` is
`(d + 3) % 7`, Monday = 0, because 1970-01-01 was a Thursday).  Python
floats are embedded as rationals, SQL `NULL`-able columns as `Option`,
and the SQLite database as a record of lists.  Python's `//` and `%` on
integers are `Int.fdiv` and `Int.emod`.
-/

namespace Fitness

/-- Embeds `d.weekday()` for a day number `d` (days since 1970-01-01,
which was a Thursday): Monday = 0 .. Sunday = 6. -/
def weekday (d : ℤ) : ℤ := (d + 3) % 7

/-- `iso_week_start` from fitness.py: `d - timedelta(days=d.weekday())`. -/
def iso_week_start (d : ℤ) : ℤ := d - weekday d

/-- `d.isoweekday()`: Monday = 1 .. Sunday = 7. -/
def isoweekday (d : ℤ) : ℤ := weekday d + 1

/-- `get_week_number_since` from fitness.py:
`(iso_week_start(target) - iso_week_start(start)).days // 7 + 1`
(Python `//` is floor division). -/
def get_week_number_since (start_date target_date : ℤ) : ℤ :=
  Int.fdiv (iso_week_start target_date - iso_week_start start_date) 7 + 1

/-- A row of the `goals` table (`key` is UNIQUE in the schema). -/
structure Goal where
  key : String
  value : ℚ
  unit : String
  updated_at : String
deriving DecidableEq

/-- A row of the `workouts` table; NULLable columns are `Option`. -/
structure Workout where
  date : ℤ
  type : String
  duration_min : Option ℚ
  distance_km : Option ℚ
  sets : Option ℤ
  reps : Option ℤ
  weight_kg : Option ℚ
  notes : Option String
  created_at : String
deriving DecidableEq

/-- A row of the `meals` table; NULLable columns are `Option`. -/
structure Meal where
  date : ℤ
  meal_type : String
  calories : Option ℚ
  protein_g : Option ℚ
  carbs_g : Option ℚ
  fat_g : Option ℚ
  items : Option String
  created_at : String
deriving DecidableEq

/-- A row of the `plan_workouts` table. -/
structure PlanRow where
  week : ℤ
  dow : ℤ
  name : String
  details : String
deriving DecidableEq

/-- The singleton `profile` row (`id=1`); `start_date` is a NULLable
TEXT column holding a day number when present. -/
structure Profile where
  name : String
  start_date : Option ℤ
deriving DecidableEq

/-- The whole SQLite database.  The `CHECK (id=1)` primary key on
`profile` means at most one profile row, hence an `Option`. -/
structure Store where
  profile : Option Profile
  goals : List Goal
  workouts : List Workout
  meals : List Meal
  plan : List PlanRow
deriving DecidableEq

/-- `COALESCE(SUM(col), 0)` over a selected column: SQL `SUM` ignores
NULLs, and an all-NULL (or empty) selection coalesces to 0. -/
def sqlSum (xs : List (Option ℚ)) : ℚ := (xs.filterMap id).sum

/-- `SELECT value, unit FROM goals WHERE key=?` + `fetchone` (the UNIQUE
constraint on `key` means at most one row can match). -/
def findGoal (gs : List Goal) (k : String) : Option Goal :=
  gs.find? (fun g => g.key == k)

/-- `get_goal` from fitness.py: `(0.0, "")` when the key is unknown. -/
def get_goal (s : Store) (k : String) : ℚ × String :=
  match findGoal s.goals k with
  | none => (0, "")
  | some g => (g.value, g.unit)

/-- `INSERT .. ON CONFLICT(key) DO UPDATE` on the goals table: with the
UNIQUE `key` constraint at most one row conflicts, so replacing the
first row with a matching key (or appending) is the SQL behaviour. -/
def upsertGoal : List Goal → Goal → List Goal
  | [], g => [g]
  | h :: t, g => if h.key == g.key then g :: t else h :: upsertGoal t g

/-- The unit resolution at the top of `set_goal` in fitness.py: when
`unit` is `None`, look up the previously stored unit via
`SELECT unit FROM goals WHERE key=?` (empty string if no row). -/
def resolveUnit (gs : List Goal) (k : String) (u : Option String) : String :=
  match u with
  | some x => x
  | none => match findGoal gs k with
    | some g => g.unit
    | none => ""

/-- `set_goal` from fitness.py: resolve the unit, then upsert. -/
def set_goal (s : Store) (k : String) (v : ℚ) (u : Option String)
    (now : String) : Store :=
  { s with goals := upsertGoal s.goals ⟨k, v, resolveUnit s.goals k u, now⟩ }

/-- `add_workout` from fitness.py: single INSERT into `workouts`. -/
def add_workout (s : Store) (date_str : ℤ) (workout_type : String)
    (duration_min distance_km : Option ℚ) (sets reps : Option ℤ)
    (weight_kg : Option ℚ) (notes : Option String) (now : String) : Store :=
  { s with workouts := s.workouts ++
      [⟨date_str, workout_type, duration_min, distance_km, sets, reps,
        weight_kg, notes, now⟩] }

/-- `add_meal` from fitness.py: `if calories is None and None not in
(protein_g, carbs_g, fat_g): calories = 4*p + 4*c + 9*f`, then INSERT. -/
def add_meal (s : Store) (date_str : ℤ) (meal_type : String)
    (calories protein_g carbs_g fat_g : Option ℚ) (items : Option String)
    (now : String) : Store :=
  let cal : Option ℚ :=
    match calories, protein_g, carbs_g, fat_g with
    | none, some p, some c, some f => some (4 * p + 4 * c + 9 * f)
    | _, _, _, _ => calories
  { s with meals := s.meals ++
      [⟨date_str, meal_type, cal, protein_g, carbs_g, fat_g, items, now⟩] }

/-- `get_profile` from fitness.py: fall back to name "You" and
`start_date = iso_today()` when no profile row exists. -/
def get_profile (s : Store) (today : ℤ) : Profile :=
  match s.profile with
  | none => ⟨"You", some today⟩
  | some p => p

/-- The clamped plan week computed inside `get_today_plan`:
`max(1, min(4, get_week_number_since(start, today)))`. -/
def plan_week_used (start_date target_date : ℤ) : ℤ :=
  max 1 (min 4 (get_week_number_since start_date target_date))

/-- `get_today_plan` from fitness.py: resolve the profile (with
fallback), clamp the week number to [1, 4], and look up
`(week, isoweekday)` in `plan_workouts`. -/
def get_today_plan (s : Store) (today : ℤ) : Option (String × String) :=
  let profile := get_profile s today
  let start := match profile.start_date with
    | some sd => sd
    | none => today
  let wk := plan_week_used start today
  let dow := isoweekday today
  (s.plan.find? (fun r => r.week == wk && r.dow == dow)).map
    (fun r => (r.name, r.details))

/-- The `date BETWEEN week_start AND week_start + 6 days` predicate used
by the weekly aggregation queries. -/
def in_week_window (d x : ℤ) : Bool :=
  decide (iso_week_start d ≤ x) && decide (x ≤ iso_week_start d + 6)

/-- `sum_today` from fitness.py: daily calorie/protein/exercise sums plus
this week's exercise minutes, each a `COALESCE(SUM(..), 0)`. -/
def sum_today (s : Store) (today : ℤ) : ℚ × ℚ × ℚ × ℚ :=
  let cal := sqlSum ((s.meals.filter (fun m => m.date == today)).map
    (fun m => m.calories))
  let prot := sqlSum ((s.meals.filter (fun m => m.date == today)).map
    (fun m => m.protein_g))
  let ex := sqlSum ((s.workouts.filter (fun w => w.date == today)).map
    (fun w => w.duration_min))
  let weekEx := sqlSum ((s.workouts.filter (fun w => in_week_window today w.date)).map
    (fun w => w.duration_min))
  (cal, prot, ex, weekEx)

/-- The aggregation queries of `cmd_week` from fitness.py: weekly
exercise minutes, calories and protein over `BETWEEN start AND end`. -/
def cmd_week_totals (s : Store) (today : ℤ) : ℚ × ℚ × ℚ :=
  let minutes := sqlSum ((s.workouts.filter (fun w => in_week_window today w.date)).map
    (fun w => w.duration_min))
  let calories := sqlSum ((s.meals.filter (fun m => in_week_window today m.date)).map
    (fun m => m.calories))
  let protein := sqlSum ((s.meals.filter (fun m => in_week_window today m.date)).map
    (fun m => m.protein_g))
  (minutes, calories, protein)

/-- `DEFAULT_PLAN` from fitness.py: 12 fixed rows, weeks 1-4 on
Monday/Wednesday/Friday. -/
def DEFAULT_PLAN : List PlanRow :=
  [⟨1, 1, "Workout A", "Full-body: Squat 3x8, Push-up 3xAMRAP, Row 3x10, Plank 3x30s"⟩,
   ⟨2, 1, "Workout A", "Full-body: Squat 3x8, Push-up 3xAMRAP, Row 3x10, Plank 3x30s"⟩,
   ⟨3, 1, "Workout A", "Full-body: Squat 3x8, Push-up 3xAMRAP, Row 3x10, Plank 3x30s"⟩,
   ⟨4, 1, "Workout A", "Full-body: Squat 3x8, Push-up 3xAMRAP, Row 3x10, Plank 3x30s"⟩,
   ⟨1, 3, "Workout B", "Full-body: Hinge 3x8, Overhead Press 3x8, Lat Pull 3x10, Side Plank 3x30s"⟩,
   ⟨2, 3, "Workout B", "Full-body: Hinge 3x8, Overhead Press 3x8, Lat Pull 3x10, Side Plank 3x30s"⟩,
   ⟨3, 3, "Workout B", "Full-body: Hinge 3x8, Overhead Press 3x8, Lat Pull 3x10, Side Plank 3x30s"⟩,
   ⟨4, 3, "Workout B", "Full-body: Hinge 3x8, Overhead Press 3x8, Lat Pull 3x10, Side Plank 3x30s"⟩,
   ⟨1, 5, "Workout C", "Full-body: Lunge 3x8/leg, Bench 3x8, Row 3x10, Deadbug 3x10/side"⟩,
   ⟨2, 5, "Workout C", "Full-body: Lunge 3x8/leg, Bench 3x8, Row 3x10, Deadbug 3x10/side"⟩,
   ⟨3, 5, "Workout C", "Full-body: Lunge 3x8/leg, Bench 3x8, Row 3x10, Deadbug 3x10/side"⟩,
   ⟨4, 5, "Workout C", "Full-body: Lunge 3x8/leg, Bench 3x8, Row 3x10, Deadbug 3x10/side"⟩]

/-- `DEFAULT_GOALS` from fitness.py. -/
def DEFAULT_GOALS : List (String × ℚ × String) :=
  [("daily_calories", 1800, "kcal"),
   ("daily_protein_g", 120, "g"),
   ("weekly_exercise_minutes", 150, "min"),
   ("daily_walk_minutes", 30, "min")]

/-- `INSERT OR IGNORE INTO goals ..`: insert only when no row with the
same (UNIQUE) key already exists. -/
def insertGoalIgnore (gs : List Goal) (kvu : String × ℚ × String)
    (now : String) : List Goal :=
  if gs.any (fun g => g.key == kvu.1) then gs
  else gs ++ [⟨kvu.1, kvu.2.1, kvu.2.2, now⟩]

/-- Python's falsy test `name or "You"`: `None` and `""` both fall back. -/
def displayName (name : Option String) : String :=
  match name with
  | none => "You"
  | some n => if n = "" then "You" else n

/-- `seed_defaults` from fitness.py: insert the profile only if absent,
bulk-insert `DEFAULT_PLAN` only if the plan table is empty, and
insert-or-ignore each of `DEFAULT_GOALS`. -/
def seed_defaults (s : Store) (name : Option String) (today : ℤ)
    (now : String) : Store :=
  let profile := match s.profile with
    | none => some ⟨displayName name, some today⟩
    | some p => some p
  let plan := if s.plan.isEmpty then s.plan ++ DEFAULT_PLAN else s.plan
  let goals := DEFAULT_GOALS.foldl (fun gs kvu => insertGoalIgnore gs kvu now) s.goals
  ⟨profile, goals, s.workouts, s.meals, plan⟩

/-- What one `print_progress` line from fitness.py renders: the number of
filled bar cells out of `width`, and the numeric values interpolated
into `"{current:.0f}/{goal:.0f} {unit}"` (before display rounding). -/
structure ProgressRender where
  ratio : ℚ
  filled : ℕ
  width : ℕ
  shown_current : ℚ
  shown_goal : ℚ
  unit : String
deriving DecidableEq

/-- `print_progress` from fitness.py: clamp both inputs at 0,
`ratio = 0.0 if goal == 0 else min(1.0, current / goal)`,
`filled = int(ratio * width)` (truncation; the ratio is non-negative so
this is the floor). -/
def print_progress (current goal : ℚ) (width : ℕ) (unit : String) :
    ProgressRender :=
  let c := max 0 current
  let g := max 0 goal
  let ratio : ℚ := if g = 0 then 0 else min 1 (c / g)
  let filled : ℕ := (⌊ratio * (width : ℚ)⌋).toNat
  ⟨ratio, filled, width, c, g, unit⟩

/-- Numeric value of a decimal digit character. -/
def digitVal (c : Char) : ℕ := c.toNat - 48

/-- Gregorian leap-year rule, as `calendar`/`datetime` implement it. -/
def isLeap (y : ℕ) : Bool := (y % 4 == 0 && y % 100 != 0) || y % 400 == 0

/-- Days in a month, as `datetime.date` validates them. -/
def daysInMonth (y m : ℕ) : ℕ :=
  if m = 2 then (if isLeap y then 29 else 28)
  else if m = 4 || m = 6 || m = 9 || m = 11 then 30
  else 31

/-- The day part of CPython's strptime: regex `3[01]|[12]\d|0[1-9]|[1-9]`
at end of input, i.e. one digit 1-9 or two digits with value 1-31. -/
def parseDayPart (cs : List Char) : Option ℕ :=
  match cs with
  | [d1] =>
    if d1.isDigit && d1 != '0' then some (digitVal d1) else none
  | [d1, d2] =>
    if d1.isDigit && d2.isDigit then
      let v := digitVal d1 * 10 + digitVal d2
      if 1 ≤ v && v ≤ 31 then some v else none
    else none
  | _ => none

/-- The month part of CPython's strptime (`1[0-2]|0[1-9]|[1-9]` followed
by a literal dash), then the day part: the month is one digit 1-9 when
the next character is the dash, else two digits with value 1-12. -/
def parseMonthDay (cs : List Char) : Option (ℕ × ℕ) :=
  match cs with
  | m1 :: '-' :: rest =>
    if m1.isDigit && m1 != '0' then
      (parseDayPart rest).map (fun d => (digitVal m1, d))
    else none
  | m1 :: m2 :: '-' :: rest =>
    if m1.isDigit && m2.isDigit then
      let v := digitVal m1 * 10 + digitVal m2
      if 1 ≤ v && v ≤ 12 then (parseDayPart rest).map (fun d => (v, d))
      else none
    else none
  | _ => none

/-- `datetime.strptime(value, "%Y-%m-%d").date()`: a four-digit year, a
dash, month and day per CPython's strptime regexes consuming the whole
string, and the `date` constructor's calendar validation (year at least
1, day at most the month length). -/
def parseDateStr (s : String) : Option (ℕ × ℕ × ℕ) :=
  match s.toList with
  | y1 :: y2 :: y3 :: y4 :: '-' :: rest =>
    if y1.isDigit && y2.isDigit && y3.isDigit && y4.isDigit then
      let y := ((digitVal y1 * 10 + digitVal y2) * 10 + digitVal y3) * 10 + digitVal y4
      match parseMonthDay rest with
      | some (m, d) =>
        if 1 ≤ y && d ≤ daysInMonth y m then some (y, m, d) else none
      | none => none
    else none
  | _ => none

/-- Day number (days since 1970-01-01) of a civil date, used to store a
parsed date in the integer-day embedding. -/
def daysFromCivil (y m d : ℕ) : ℤ :=
  let ya : ℤ := if m ≤ 2 then (y : ℤ) - 1 else (y : ℤ)
  let era : ℤ := Int.fdiv ya 400
  let yoe : ℤ := ya - era * 400
  let mp : ℤ := ((m : ℤ) + 9) % 12
  let doy : ℤ := Int.fdiv (153 * mp + 2) 5 + (d : ℤ) - 1
  let doe : ℤ := yoe * 365 + Int.fdiv yoe 4 - Int.fdiv yoe 100 + doy
  era * 146097 + doe - 719468

/-- An error exit: the stderr message and the process exit code. -/
abbrev ExitErr := String × ℕ

/-- `parse_date` from fitness.py: a falsy argument (absent or empty
string) yields today; otherwise strptime, and on `ValueError` the
program prints to stderr and calls `sys.exit(1)`. -/
def parse_date (value : Option String) (today : ℤ) : Except ExitErr ℤ :=
  match value with
  | none => .ok today
  | some str =>
    if str = "" then .ok today
    else match parseDateStr str with
      | some ymd => .ok (daysFromCivil ymd.1 ymd.2.1 ymd.2.2)
      | none => .error ("Invalid date format. Use YYYY-MM-DD.", 1)

/-- `cmd_add_workout` from fitness.py: `parse_date` runs before the
INSERT (Python evaluates the argument first), so a bad date exits with
the store untouched; otherwise the row is appended. -/
def cmd_add_workout (s : Store) (dateArg : Option String) (ty : String)
    (duration distance : Option ℚ) (sets reps : Option ℤ)
    (weight : Option ℚ) (notes : Option String) (today : ℤ)
    (now : String) : Store × Except ExitErr Unit :=
  match parse_date dateArg today with
  | .error e => (s, .error e)
  | .ok d => (add_workout s d ty duration distance sets reps weight notes now, .ok ())

/-- `cmd_add_meal` from fitness.py: same shape as `cmd_add_workout`. -/
def cmd_add_meal (s : Store) (dateArg : Option String) (mealType : String)
    (calories protein carbs fat : Option ℚ) (items : Option String)
    (today : ℤ) (now : String) : Store × Except ExitErr Unit :=
  match parse_date dateArg today with
  | .error e => (s, .error e)
  | .ok d => (add_meal s d mealType calories protein carbs fat items now, .ok ())

/-- The quoting test in `cmd_export`:
`"," in s or "\n" in s or double-quote in s`. -/
def needsQuote (s : List Char) : Bool :=
  s.contains ',' || s.contains '\n' || s.contains '"'

/-- `s.replace(one double-quote, two double-quotes)` from `cmd_export`. -/
def escapeQuotes : List Char → List Char
  | [] => []
  | c :: rest => (if c = '"' then ['"', '"'] else [c]) ++ escapeQuotes rest

/-- One CSV field as `cmd_export` emits it: quoted with internal quotes
doubled exactly when the value contains a comma, newline or quote. -/
def csvField (s : List Char) : List Char :=
  if needsQuote s then '"' :: (escapeQuotes s ++ ['"']) else s

/-- Modelled from the spec: the body of a quoted field as a standard
RFC-4180 CSV reader consumes it — a doubled quote is an escaped quote,
a single quote closes the field; returns the decoded field and the
characters after the closing quote, or `none` if unterminated. -/
def parseQuotedBody : List Char → Option (List Char × List Char)
  | [] => none
  | c :: rest =>
    if c = '"' then
      match rest with
      | c2 :: rest2 =>
        if c2 = '"' then (parseQuotedBody rest2).map (fun p => ('"' :: p.1, p.2))
        else some ([], rest)
      | [] => some ([], [])
    else (parseQuotedBody rest).map (fun p => (c :: p.1, p.2))

/-- Modelled from the spec: a standard RFC-4180 CSV reader reading one
complete field.  A field starting with a quote is a quoted field and
must end at its closing quote; otherwise the field is unquoted and may
not contain a comma, carriage return, or line feed (which end the field
or the record). -/
def rfcReadField (s : List Char) : Option (List Char) :=
  match s with
  | [] => some []
  | c :: rest =>
    if c = '"' then
      match parseQuotedBody rest with
      | some (f, []) => some f
      | _ => none
    else
      if (c :: rest).all (fun x => x ≠ ',' && x ≠ '\n' && x ≠ '\r') then
        some (c :: rest)
      else none

/-- The existence test `SELECT 1 FROM goals WHERE key=?` used by the
seeding code (`INSERT OR IGNORE` checks the UNIQUE key). -/
def goalKeyPresent (gs : List Goal) (k : String) : Bool :=
  gs.any (fun g => g.key == k)

/-- C1: for every meal added via `add_meal`, if `calories` is absent and
all three macros are present the stored calories is
`4*protein + 4*carbs + 9*fat`; if `calories` is absent and at least one
macro is absent the stored calories is absent; a supplied `calories` is
stored unchanged. -/
theorem add_meal_calorie_derivation (s : Store) (d : ℤ) (mt : String)
    (cal p c f : Option ℚ) (items : Option String) (now : String) :
    (∀ pv cv fv, cal = none → p = some pv → c = some cv → f = some fv →
      ((add_meal s d mt cal p c f items now).meals.getLast?.map Meal.calories)
        = some (some (4 * pv + 4 * cv + 9 * fv))) ∧
    (cal = none → (p = none ∨ c = none ∨ f = none) →
      ((add_meal s d mt cal p c f items now).meals.getLast?.map Meal.calories)
        = some none) ∧
    (∀ v, cal = some v →
      ((add_meal s d mt cal p c f items now).meals.getLast?.map Meal.calories)
        = some (some v)) := by
  refine ⟨?_, ?_, ?_⟩
  · rintro pv cv fv rfl rfl rfl rfl
    simp [add_meal, List.getLast?_concat]
  · rintro rfl h
    rcases h with rfl | rfl | rfl
    · rcases c with _ | cv <;> rcases f with _ | fv <;>
        simp [add_meal, List.getLast?_concat]
    · rcases p with _ | pv <;> rcases f with _ | fv <;>
        simp [add_meal, List.getLast?_concat]
    · rcases p with _ | pv <;> rcases c with _ | cv <;>
        simp [add_meal, List.getLast?_concat]
  · rintro v rfl
    rcases p with _ | pv <;> rcases c with _ | cv <;> rcases f with _ | fv <;>
      simp [add_meal, List.getLast?_concat]

/-- Witness for C1 at the spec's own example inputs. -/
theorem add_meal_calorie_derivation_witness :
    ((add_meal ⟨none, [], [], [], []⟩ 0 "lunch" none (some 10) (some 20)
      (some 5) none "t").meals.getLast?.map Meal.calories) = some (some 165) ∧
    ((add_meal ⟨none, [], [], [], []⟩ 0 "lunch" none (some 10) none
      (some 5) none "t").meals.getLast?.map Meal.calories) = some none := by
  constructor
  · exact ((add_meal_calorie_derivation ⟨none, [], [], [], []⟩ 0 "lunch" none
      (some 10) (some 20) (some 5) none "t").1 10 20 5 rfl rfl rfl rfl).trans
      (by norm_num)
  · exact (add_meal_calorie_derivation ⟨none, [], [], [], []⟩ 0 "lunch" none
      (some 10) none (some 5) none "t").2.1 rfl (Or.inr (Or.inl rfl))

/-- C2: the plan week used by the day's plan lookup is
`floor((week_start(target) - week_start(start)) / 7) + 1` clamped to
[1, 4]; it always lies in [1, 4], and a target 10 weeks (70 days) after
the start resolves to week 4. -/
theorem plan_week_clamped (start target : ℤ) :
    plan_week_used start target
      = max 1 (min 4 (Int.fdiv (iso_week_start target - iso_week_start start) 7 + 1)) ∧
    1 ≤ plan_week_used start target ∧ plan_week_used start target ≤ 4 ∧
    plan_week_used start (start + 70) = 4 := by
  refine ⟨rfl, le_max_left _ _, max_le (by norm_num) (min_le_left _ _), ?_⟩
  have h : iso_week_start (start + 70) - iso_week_start start = 70 := by
    unfold iso_week_start weekday
    omega
  unfold plan_week_used get_week_number_since
  rw [h]
  decide

/-- C7: goal lookup is total — `get_goal` returns `(0, "")` when no row
with the key exists, and the stored `(value, unit)` pair when one does
(keys are UNIQUE in the schema, hence the Nodup hypothesis); it never
fails and, being a pure query, never changes the store. -/
theorem get_goal_total (s : Store) (k : String) :
    ((∀ g ∈ s.goals, g.key ≠ k) → get_goal s k = (0, "")) ∧
    ((s.goals.map Goal.key).Nodup →
      ∀ g ∈ s.goals, g.key = k → get_goal s k = (g.value, g.unit)) := by
  constructor
  · intro h
    unfold get_goal findGoal
    have hn : s.goals.find? (fun g => g.key == k) = none := by
      rw [List.find?_eq_none]
      intro g hg
      simp [h g hg]
    rw [hn]
  · intro hnd g hg hk
    unfold get_goal findGoal
    cases hfind : s.goals.find? (fun g => g.key == k) with
    | none =>
      exfalso
      rw [List.find?_eq_none] at hfind
      exact hfind g hg (by simp [hk])
    | some g2 =>
      have h1 : g2.key = k := by simpa using List.find?_some hfind
      have h2 : g2 ∈ s.goals := List.mem_of_find?_eq_some hfind
      have h3 : g2 = g := List.inj_on_of_nodup_map hnd h2 hg (h1.trans hk.symm)
      rw [h3]

/-- Witness for C7: an unknown key yields `(0, "")`, a stored key yields
its stored pair. -/
theorem get_goal_total_witness :
    get_goal ⟨none, [], [], [], []⟩ "missing" = (0, "") ∧
    get_goal ⟨none, [⟨"k", 10, "u", "t"⟩], [], [], []⟩ "k" = (10, "u") := by
  constructor
  · exact (get_goal_total ⟨none, [], [], [], []⟩ "missing").1 (by simp)
  · exact (get_goal_total ⟨none, [⟨"k", 10, "u", "t"⟩], [], [], []⟩ "k").2
      (by simp) ⟨"k", 10, "u", "t"⟩ (by simp) rfl

/-- C10: with no profile row, the profile read falls back to
`("You", today)`, the plan week computes to 1, and the day's plan lookup
is performed for `(week 1, today's ISO day of week)`, returning a plan
entry or the absent result. -/
theorem today_plan_without_profile (s : Store) (today : ℤ)
    (h : s.profile = none) :
    get_profile s today = ⟨"You", some today⟩ ∧
    plan_week_used today today = 1 ∧
    get_today_plan s today = (s.plan.find?
      (fun r => r.week == (1 : ℤ) && r.dow == isoweekday today)).map
      (fun r => (r.name, r.details)) := by
  have hw : plan_week_used today today = 1 := by
    unfold plan_week_used get_week_number_since
    rw [sub_self]
    decide
  refine ⟨by simp [get_profile, h], hw, ?_⟩
  simp [get_today_plan, get_profile, h, hw]

/-- Witness for C10: on an empty store holding only the seeded plan, a
Monday resolves to Workout A. -/
theorem today_plan_without_profile_witness :
    get_today_plan ⟨none, [], [], [], DEFAULT_PLAN⟩ 19723
      = some ("Workout A",
          "Full-body: Squat 3x8, Push-up 3xAMRAP, Row 3x10, Plank 3x30s") := by
  have h := (today_plan_without_profile ⟨none, [], [], [], DEFAULT_PLAN⟩
    19723 rfl).2.2
  exact h.trans (by decide)

/-- `COALESCE(SUM(col), 0)` equals the sum in which every NULL
contributes zero. -/
theorem sqlSum_getD (xs : List (Option ℚ)) :
    sqlSum xs = (xs.map (fun o => o.getD 0)).sum := by
  induction xs with
  | nil => rfl
  | cons h t ih =>
    cases h <;> simp [sqlSum, List.filterMap_cons] <;>
      simpa [sqlSum] using ih

/-- C3: the computed week start is the most recent Monday on or before
`d` (it is a Monday, is at most `d`, and `d` is within 6 days of it),
and the weekly totals — workout minutes, meal calories, meal protein —
sum exactly the entries in the inclusive window
`[week_start d, week_start d + 6]`, with the window containing both of
its endpoints but not `week_start d + 7`, and absent numeric fields
contributing zero. -/
theorem week_window_and_totals (s : Store) (d : ℤ) :
    weekday (iso_week_start d) = 0 ∧
    iso_week_start d ≤ d ∧ d < iso_week_start d + 7 ∧
    in_week_window d (iso_week_start d) = true ∧
    in_week_window d (iso_week_start d + 6) = true ∧
    in_week_window d (iso_week_start d + 7) = false ∧
    (cmd_week_totals s d).1
      = ((s.workouts.filter (fun w => in_week_window d w.date)).map
          (fun w => w.duration_min.getD 0)).sum ∧
    (cmd_week_totals s d).2.1
      = ((s.meals.filter (fun m => in_week_window d m.date)).map
          (fun m => m.calories.getD 0)).sum ∧
    (cmd_week_totals s d).2.2
      = ((s.meals.filter (fun m => in_week_window d m.date)).map
          (fun m => m.protein_g.getD 0)).sum ∧
    (sum_today s d).2.2.2
      = ((s.workouts.filter (fun w => in_week_window d w.date)).map
          (fun w => w.duration_min.getD 0)).sum := by
  refine ⟨?_, ?_, ?_, ?_, ?_, ?_, ?_, ?_, ?_, ?_⟩
  · simp only [weekday, iso_week_start]
    omega
  · simp only [iso_week_start, weekday]
    omega
  · simp only [iso_week_start, weekday]
    omega
  · simp [in_week_window]
  · simp [in_week_window]
  · simp [in_week_window]
  · simp [cmd_week_totals, sqlSum_getD, List.map_map, Function.comp_def]
  · simp [cmd_week_totals, sqlSum_getD, List.map_map, Function.comp_def]
  · simp [cmd_week_totals, sqlSum_getD, List.map_map, Function.comp_def]
  · simp [sum_today, sqlSum_getD, List.map_map, Function.comp_def]

/-- C6 counterexample: at `current = 1, goal = 0` the current value
exceeds the goal, yet the rendered bar has 0 of its 24 cells filled —
it is not fully filled, because the zero-goal rule wins. -/
theorem progress_full_bar_counterexample :
    (0 : ℚ) < 1 ∧ (print_progress 1 0 24 "min").filled = 0 ∧ (0 : ℕ) ≠ 24 := by
  refine ⟨by norm_num, ?_, by decide⟩
  norm_num [print_progress]

/-- C6 (amended): the ratio is `current/goal` clamped to [0, 1]; a goal
clamped to zero yields ratio 0 with no division; and when current
exceeds a positive goal the bar renders fully filled while the value
interpolated into the numeric suffix is still the uncapped current. -/
theorem progress_ratio_clamped (current goal : ℚ) (w : ℕ) (u : String) :
    0 ≤ (print_progress current goal w u).ratio ∧
    (print_progress current goal w u).ratio ≤ 1 ∧
    (goal ≤ 0 → (print_progress current goal w u).ratio = 0) ∧
    (0 < goal → (print_progress current goal w u).ratio
      = min 1 (max 0 current / goal)) ∧
    (0 < goal → goal < current →
      (print_progress current goal w u).filled = w ∧
      (print_progress current goal w u).shown_current = current) := by
  unfold print_progress
  simp only []
  by_cases hg : max 0 goal = 0
  · refine ⟨by simp [hg], by simp [hg], fun _ => by simp [hg], ?_, ?_⟩
    · intro hpos
      rw [max_eq_right hpos.le] at hg
      exact absurd hg (ne_of_gt hpos)
    · intro hpos _
      rw [max_eq_right hpos.le] at hg
      exact absurd hg (ne_of_gt hpos)
  · have hgpos : 0 < max 0 goal := lt_of_le_of_ne (le_max_left 0 goal) (Ne.symm hg)
    have hc : (0 : ℚ) ≤ max 0 current := le_max_left 0 current
    refine ⟨?_, ?_, ?_, ?_, ?_⟩
    · simp only [if_neg hg]
      exact le_min (by norm_num) (div_nonneg hc hgpos.le)
    · simp only [if_neg hg]
      exact min_le_left _ _
    · intro hle
      exact absurd (max_eq_left hle) hg
    · intro hpos
      rw [if_neg hg, max_eq_right hpos.le]
    · intro hpos hlt
      have hg2 : max 0 goal = goal := max_eq_right hpos.le
      have hc2 : max 0 current = current := max_eq_right (hpos.trans hlt).le
      have hdiv : (1 : ℚ) ≤ max 0 current / max 0 goal := by
        rw [hg2, hc2]
        rw [le_div_iff₀ hpos]
        simpa using hlt.le
      have hratio : (if max 0 goal = 0 then (0 : ℚ)
          else min 1 (max 0 current / max 0 goal)) = 1 := by
        rw [if_neg hg, min_eq_left hdiv]
      refine ⟨?_, hc2⟩
      rw [hratio, one_mul]
      simp

/-- Witness for C6 (amended): current 30 against goal 20 fills all 24
cells and the shown value is still 30. -/
theorem progress_ratio_clamped_witness :
    (print_progress 30 20 24 "min").filled = 24 ∧
    (print_progress 30 20 24 "min").shown_current = 30 := by
  exact (progress_ratio_clamped 30 20 24 "min").2.2.2.2 (by norm_num) (by norm_num)

/-- C8 counterexample: the empty date string does not parse as
YYYY-MM-DD, yet `add-workout --date=` succeeds — Python's falsy test in
`parse_date` treats `""` like an omitted date, so a workout row is
written for today and the process does not exit with an error. -/
theorem empty_date_write_counterexample :
    parseDateStr "" = none ∧
    cmd_add_workout ⟨none, [], [], [], []⟩ (some "") "run" (some 30) none
      none none none none 100 "t"
      = (⟨none, [], [⟨100, "run", some 30, none, none, none, none, none, "t"⟩],
          [], []⟩, .ok ()) := by
  constructor
  · decide
  · rfl

/-- C8 (amended): for every add-workout or add-meal invocation carrying
a nonempty date string that does not parse as YYYY-MM-DD, the command
reports "Invalid date format. Use YYYY-MM-DD." on standard error and
exits with code 1 before any write: the returned store is exactly the
starting store. -/
theorem invalid_date_exits_before_write (s : Store) (str ty : String)
    (dur dist : Option ℚ) (sets reps : Option ℤ) (wt : Option ℚ)
    (notes : Option String) (mt : String) (cal p c f : Option ℚ)
    (items : Option String) (today : ℤ) (now : String)
    (hne : str ≠ "") (hbad : parseDateStr str = none) :
    cmd_add_workout s (some str) ty dur dist sets reps wt notes today now
      = (s, .error ("Invalid date format. Use YYYY-MM-DD.", 1)) ∧
    cmd_add_meal s (some str) mt cal p c f items today now
      = (s, .error ("Invalid date format. Use YYYY-MM-DD.", 1)) := by
  constructor <;> simp [cmd_add_workout, cmd_add_meal, parse_date, hne, hbad]

/-- Witness for C8 (amended) at the malformed date "2024-13-01". -/
theorem invalid_date_exits_witness :
    cmd_add_workout ⟨none, [], [], [], []⟩ (some "2024-13-01") "run" none none
      none none none none 0 "t"
      = (⟨none, [], [], [], []⟩, .error ("Invalid date format. Use YYYY-MM-DD.", 1)) := by
  exact (invalid_date_exits_before_write ⟨none, [], [], [], []⟩ "2024-13-01"
    "run" none none none none none none "meal" none none none none none 0 "t"
    (by decide) (by decide)).1

/-- Looking up the key just upserted finds the upserted row. -/
theorem findGoal_upsertGoal (gs : List Goal) (g : Goal) :
    findGoal (upsertGoal gs g) g.key = some g := by
  induction gs with
  | nil => simp [upsertGoal, findGoal]
  | cons h t ih =>
    unfold upsertGoal
    by_cases hk : (h.key == g.key) = true
    · rw [if_pos hk]
      simp [findGoal]
    · rw [if_neg hk]
      unfold findGoal at ih ⊢
      rw [List.find?_cons_of_neg _ (by simpa using hk)]
      exact ih

/-- Every key after an upsert is the upserted key or an old key. -/
theorem upsertGoal_keys_sub (gs : List Goal) (g : Goal) (x : String)
    (hx : x ∈ (upsertGoal gs g).map Goal.key) :
    x = g.key ∨ x ∈ gs.map Goal.key := by
  induction gs with
  | nil => simpa [upsertGoal] using hx
  | cons h t ih =>
    unfold upsertGoal at hx
    by_cases hk : (h.key == g.key) = true
    · rw [if_pos hk] at hx
      simp only [List.map_cons, List.mem_cons] at hx
      rcases hx with rfl | hx
      · exact Or.inl rfl
      · exact Or.inr (by simp [hx])
    · rw [if_neg hk] at hx
      simp only [List.map_cons, List.mem_cons] at hx
      rcases hx with rfl | hx
      · exact Or.inr (by simp)
      · rcases ih hx with h1 | h1
        · exact Or.inl h1
        · exact Or.inr (by simp [h1])

/-- An upsert keeps the goal keys duplicate-free. -/
theorem upsertGoal_nodup (gs : List Goal) (g : Goal)
    (h : (gs.map Goal.key).Nodup) : ((upsertGoal gs g).map Goal.key).Nodup := by
  induction gs with
  | nil => simp [upsertGoal]
  | cons hd t ih =>
    rw [List.map_cons, List.nodup_cons] at h
    unfold upsertGoal
    by_cases hk : (hd.key == g.key) = true
    · rw [if_pos hk]
      rw [List.map_cons, List.nodup_cons]
      have he : hd.key = g.key := by simpa using hk
      exact ⟨he ▸ h.1, h.2⟩
    · rw [if_neg hk]
      rw [List.map_cons, List.nodup_cons]
      refine ⟨?_, ih h.2⟩
      intro hmem
      rcases upsertGoal_keys_sub t g hd.key hmem with h1 | h1
      · exact hk (by simp [h1])
      · exact h.1 h1

/-- Reading back the key just upserted yields the upserted value and
unit. -/
theorem get_goal_after_upsert (s : Store) (k : String) (v : ℚ)
    (u2 now : String) :
    get_goal { s with goals := upsertGoal s.goals ⟨k, v, u2, now⟩ } k
      = (v, u2) := by
  have h : findGoal (upsertGoal s.goals ⟨k, v, u2, now⟩) k
      = some ⟨k, v, u2, now⟩ := findGoal_upsertGoal s.goals ⟨k, v, u2, now⟩
  simp only [get_goal]
  rw [h]

/-- C4: after `set_goal k v u`, looking up `k` yields value `v`; when
the unit argument is omitted the previously stored unit is carried
forward (empty string if no row existed); and the goal keys stay
duplicate-free — at most one row per key. -/
theorem goal_upsert (s : Store) (k : String) (v : ℚ) (u : Option String)
    (now : String) :
    ((get_goal (set_goal s k v u now) k).1 = v) ∧
    (∀ ustr, u = some ustr → (get_goal (set_goal s k v u now) k).2 = ustr) ∧
    (∀ g0, u = none → findGoal s.goals k = some g0 →
      (get_goal (set_goal s k v none now) k).2 = g0.unit) ∧
    (u = none → findGoal s.goals k = none →
      (get_goal (set_goal s k v none now) k).2 = "") ∧
    ((s.goals.map Goal.key).Nodup →
      ((set_goal s k v u now).goals.map Goal.key).Nodup) := by
  refine ⟨?_, ?_, ?_, ?_, ?_⟩
  · unfold set_goal
    rw [get_goal_after_upsert]
  · rintro ustr rfl
    unfold set_goal
    rw [get_goal_after_upsert]
    rfl
  · rintro g0 rfl hfind
    unfold set_goal
    rw [get_goal_after_upsert]
    simp [resolveUnit, hfind]
  · rintro rfl hfind
    unfold set_goal
    rw [get_goal_after_upsert]
    simp [resolveUnit, hfind]
  · intro hnd
    unfold set_goal
    exact upsertGoal_nodup s.goals _ hnd

/-- Witness for C4 at the spec's example: set ("k", 10, "u") then
("k", 20, no unit) yields value 20 with unit "u". -/
theorem goal_upsert_witness :
    get_goal (set_goal (set_goal ⟨none, [], [], [], []⟩ "k" 10 (some "u") "t1")
      "k" 20 none "t2") "k" = (20, "u") := by
  have h1 := (goal_upsert (set_goal ⟨none, [], [], [], []⟩ "k" 10 (some "u") "t1")
    "k" 20 none "t2").1
  have h2 := (goal_upsert (set_goal ⟨none, [], [], [], []⟩ "k" 10 (some "u") "t1")
    "k" 20 none "t2").2.2.1 ⟨"k", 10, "u", "t1"⟩ rfl (by decide)
  simpa [Prod.ext_iff] using And.intro h1 h2

/-- The quoted-field body produced by doubling internal quotes and
closing with a quote reads back as the original characters. -/
theorem parseQuotedBody_escape (s : List Char) :
    parseQuotedBody (escapeQuotes s ++ ['"']) = some (s, []) := by
  induction s with
  | nil =>
    rw [show escapeQuotes [] ++ ['"'] = ['"'] from rfl]
    rw [parseQuotedBody.eq_def]
    simp only [if_true]
  | cons c t ih =>
    by_cases hc : c = '"'
    · subst hc
      have hsplit : escapeQuotes ('"' :: t) ++ ['"']
          = '"' :: '"' :: (escapeQuotes t ++ ['"']) := by
        simp [escapeQuotes]
      rw [hsplit, parseQuotedBody.eq_def]
      simp only [if_true]
      rw [ih]
      rfl
    · have hsplit : escapeQuotes (c :: t) ++ ['"']
          = c :: (escapeQuotes t ++ ['"']) := by
        simp [escapeQuotes, hc]
      rw [hsplit, parseQuotedBody.eq_def]
      simp only []
      rw [if_neg hc, ih]
      rfl

/-- C9 counterexample: a stored value containing a bare carriage return
is emitted unquoted (it contains no comma, quote, or newline), and a
standard RFC-4180 reader does not reproduce it as a single field. -/
theorem csv_cr_counterexample :
    csvField ['a', '\r', 'b'] = ['a', '\r', 'b'] ∧
    rfcReadField (csvField ['a', '\r', 'b']) = none := by
  constructor <;> decide

/-- C9 (amended): the export wraps a field in double quotes with
internal quotes doubled exactly when it contains a comma, a double
quote, or a newline; and for every value that contains no bare carriage
return (or that gets quoted anyway), a standard RFC-4180 reader parses
the emitted field back to the original string exactly. -/
theorem csv_quoting_round_trip (s : List Char) :
    (needsQuote s = true ↔ ',' ∈ s ∨ '\n' ∈ s ∨ '"' ∈ s) ∧
    ('\r' ∉ s ∨ needsQuote s = true → rfcReadField (csvField s) = some s) := by
  constructor
  · simp [needsQuote, or_assoc]
  · intro h
    unfold csvField
    by_cases hq : needsQuote s = true
    · rw [if_pos hq]
      rw [rfcReadField.eq_def]
      simp only [if_true]
      rw [parseQuotedBody_escape]
    · rw [if_neg hq]
      have hmem : ',' ∉ s ∧ '\n' ∉ s ∧ '"' ∉ s := by
        have h2 := hq
        simp [needsQuote] at h2
        exact ⟨h2.1.1, h2.1.2, h2.2⟩
      have hr : '\r' ∉ s := by
        rcases h with hr | hq2
        · exact hr
        · exact absurd hq2 hq
      cases s with
      | nil => rfl
      | cons c t =>
        have hc : ¬(c = '"') := fun hcq => hmem.2.2 (by simp [hcq])
        have hall : ((c :: t).all
            fun x => x ≠ ',' && x ≠ '\n' && x ≠ '\r') = true := by
          rw [List.all_eq_true]
          intro x hx
          simp only [Bool.and_eq_true, decide_eq_true_eq]
          refine ⟨⟨fun hxc => hmem.1 (hxc ▸ hx),
            fun hxn => hmem.2.1 (hxn ▸ hx)⟩, fun hxr => hr (hxr ▸ hx)⟩
        rw [rfcReadField.eq_def]
        simp only []
        rw [if_neg hc, if_pos hall]

/-- Witness for C9 (amended): a value with a comma and a quote exports
as one correctly quoted field that reads back exactly. -/
theorem csv_round_trip_witness :
    rfcReadField (csvField ['a', ',', 'b', '"', 'c'])
      = some ['a', ',', 'b', '"', 'c'] := by
  exact (csv_quoting_round_trip ['a', ',', 'b', '"', 'c']).2 (Or.inl (by decide))

/-- After an insert-or-ignore, the inserted key is present. -/
theorem insertGoalIgnore_present_self (gs : List Goal)
    (kvu : String × ℚ × String) (now : String) :
    goalKeyPresent (insertGoalIgnore gs kvu now) kvu.1 = true := by
  unfold insertGoalIgnore goalKeyPresent
  by_cases hp : gs.any (fun g => g.key == kvu.1) = true
  · rw [if_pos hp]
    exact hp
  · rw [if_neg hp]
    simp

/-- Insert-or-ignore never removes a present key. -/
theorem insertGoalIgnore_present_mono (gs : List Goal)
    (kvu : String × ℚ × String) (now k : String)
    (h : goalKeyPresent gs k = true) :
    goalKeyPresent (insertGoalIgnore gs kvu now) k = true := by
  unfold goalKeyPresent at h ⊢
  unfold insertGoalIgnore
  by_cases hp : gs.any (fun g => g.key == kvu.1) = true
  · rw [if_pos hp]
    exact h
  · rw [if_neg hp]
    simp [List.any_append, h]

/-- Insert-or-ignore on an already-present key is the identity. -/
theorem insertGoalIgnore_of_present (gs : List Goal)
    (kvu : String × ℚ × String) (now : String)
    (h : goalKeyPresent gs kvu.1 = true) :
    insertGoalIgnore gs kvu now = gs := by
  unfold goalKeyPresent at h
  unfold insertGoalIgnore
  rw [if_pos h]

/-- Insert-or-ignore only ever appends. -/
theorem insertGoalIgnore_append (gs : List Goal)
    (kvu : String × ℚ × String) (now : String) :
    ∃ extra, insertGoalIgnore gs kvu now = gs ++ extra := by
  unfold insertGoalIgnore
  by_cases hp : gs.any (fun g => g.key == kvu.1) = true
  · exact ⟨[], by rw [if_pos hp, List.append_nil]⟩
  · refine ⟨[⟨kvu.1, kvu.2.1, kvu.2.2, now⟩], ?_⟩
    rw [if_neg hp]

/-- Insert-or-ignore keeps the goal keys duplicate-free. -/
theorem insertGoalIgnore_nodup (gs : List Goal)
    (kvu : String × ℚ × String) (now : String)
    (h : (gs.map Goal.key).Nodup) :
    ((insertGoalIgnore gs kvu now).map Goal.key).Nodup := by
  unfold insertGoalIgnore
  by_cases hp : gs.any (fun g => g.key == kvu.1) = true
  · rw [if_pos hp]
    exact h
  · rw [if_neg hp]
    rw [List.map_append, List.nodup_append]
    refine ⟨h, by simp, ?_⟩
    intro x hx1 hx2
    simp only [List.map_cons, List.map_nil, List.mem_singleton] at hx2
    subst hx2
    apply hp
    simp only [List.mem_map] at hx1
    rcases hx1 with ⟨g, hg, hgk⟩
    exact List.any_eq_true.mpr ⟨g, hg, by simp [hgk]⟩

/-- Seeding the goal list never removes a present key. -/
theorem seedGoals_present_mono (l : List (String × ℚ × String))
    (now k : String) :
    ∀ gs, goalKeyPresent gs k = true →
      goalKeyPresent
        (l.foldl (fun a kvu => insertGoalIgnore a kvu now) gs) k = true := by
  induction l with
  | nil => exact fun gs h => h
  | cons hd tl ih =>
    intro gs h
    rw [List.foldl_cons]
    exact ih _ (insertGoalIgnore_present_mono gs hd now k h)

/-- After seeding the goal list, every seeded key is present. -/
theorem seedGoals_present_of_mem (l : List (String × ℚ × String))
    (now : String) (kvu : String × ℚ × String) :
    ∀ gs, kvu ∈ l →
      goalKeyPresent
        (l.foldl (fun a kvu2 => insertGoalIgnore a kvu2 now) gs) kvu.1 = true := by
  induction l with
  | nil => exact fun gs h => absurd h (List.not_mem_nil kvu)
  | cons hd tl ih =>
    intro gs h
    rw [List.foldl_cons]
    rcases List.mem_cons.mp h with rfl | h2
    · exact seedGoals_present_mono tl now kvu.1 _
        (insertGoalIgnore_present_self gs kvu now)
    · exact ih _ h2

/-- Seeding the goal list keeps the keys duplicate-free. -/
theorem seedGoals_nodup (l : List (String × ℚ × String)) (now : String) :
    ∀ gs, (gs.map Goal.key).Nodup →
      (((l.foldl (fun a kvu => insertGoalIgnore a kvu now) gs)).map Goal.key).Nodup := by
  induction l with
  | nil => exact fun gs h => h
  | cons hd tl ih =>
    intro gs h
    rw [List.foldl_cons]
    exact ih _ (insertGoalIgnore_nodup gs hd now h)

/-- Seeding the goal list only ever appends rows. -/
theorem seedGoals_append (l : List (String × ℚ × String)) (now : String) :
    ∀ gs, ∃ extra,
      l.foldl (fun a kvu => insertGoalIgnore a kvu now) gs = gs ++ extra := by
  induction l with
  | nil => exact fun gs => ⟨[], by simp⟩
  | cons hd tl ih =>
    intro gs
    rcases insertGoalIgnore_append gs hd now with ⟨e1, he1⟩
    rcases ih (insertGoalIgnore gs hd now) with ⟨e2, he2⟩
    refine ⟨e1 ++ e2, ?_⟩
    rw [List.foldl_cons, he2, he1, List.append_assoc]

/-- Seeding the goal list when every seeded key is already present is
the identity. -/
theorem seedGoals_id (l : List (String × ℚ × String)) (now : String) :
    ∀ gs, (∀ kvu ∈ l, goalKeyPresent gs kvu.1 = true) →
      l.foldl (fun a kvu => insertGoalIgnore a kvu now) gs = gs := by
  induction l with
  | nil => exact fun gs _ => rfl
  | cons hd tl ih =>
    intro gs h
    rw [List.foldl_cons, insertGoalIgnore_of_present gs hd now (h hd (by simp))]
    exact ih gs (fun kvu hk => h kvu (by simp [hk]))

/-- A present key with duplicate-free keys matches exactly one row. -/
theorem present_nodup_filter_length (gs : List Goal) (k : String)
    (hp : goalKeyPresent gs k = true) (hnd : (gs.map Goal.key).Nodup) :
    (gs.filter (fun g => g.key == k)).length = 1 := by
  induction gs with
  | nil => simp [goalKeyPresent] at hp
  | cons hd tl ih =>
    rw [List.map_cons, List.nodup_cons] at hnd
    by_cases hk : (hd.key == k) = true
    · rw [List.filter_cons, if_pos hk]
      have hke : hd.key = k := by simpa using hk
      have htl : tl.filter (fun g => g.key == k) = [] := by
        rw [List.filter_eq_nil_iff]
        intro g hg hgk
        have : g.key = hd.key := by
          rw [hke]
          simpa using hgk
        exact hnd.1 (List.mem_map.mpr ⟨g, hg, this⟩)
      rw [htl]
      rfl
    · rw [List.filter_cons, if_neg hk]
      have hp2 : goalKeyPresent tl k = true := by
        unfold goalKeyPresent at hp ⊢
        rcases List.any_eq_true.mp hp with ⟨g, hg, hgk⟩
        rcases List.mem_cons.mp hg with rfl | hg2
        · exact absurd hgk hk
        · exact List.any_eq_true.mpr ⟨g, hg2, hgk⟩
      exact ih hp2 hnd.2

/-- C5 counterexample: the claim quantifies over every starting store
state, but from a store whose plan table already holds two copies of
the seed rows (the schema has no uniqueness constraint on
`plan_workouts`), `seed_defaults` skips the non-empty plan table and
leaves both copies: the first seed row remains present twice, not at
most once. -/
theorem seed_plan_copies_counterexample :
    ((seed_defaults ⟨none, [], [], [], DEFAULT_PLAN ++ DEFAULT_PLAN⟩ none 0
      "t").plan.count
        ⟨1, 1, "Workout A",
          "Full-body: Squat 3x8, Push-up 3xAMRAP, Row 3x10, Plank 3x30s"⟩) = 2 ∧
    (⟨1, 1, "Workout A",
      "Full-body: Squat 3x8, Push-up 3xAMRAP, Row 3x10, Plank 3x30s"⟩ : PlanRow)
      ∈ DEFAULT_PLAN := by
  constructor <;> decide

/-- Projection of the profile step of `seed_defaults`. -/
theorem seed_profile_eq (t : Store) (nm : Option String) (td : ℤ)
    (nw : String) :
    (seed_defaults t nm td nw).profile
      = (match t.profile with
        | none => some ⟨displayName nm, some td⟩
        | some p => some p) := rfl

/-- Projection of the goals step of `seed_defaults`. -/
theorem seed_goals_eq (t : Store) (nm : Option String) (td : ℤ)
    (nw : String) :
    (seed_defaults t nm td nw).goals
      = DEFAULT_GOALS.foldl (fun gs kvu => insertGoalIgnore gs kvu nw) t.goals := rfl

/-- Projection of the plan step of `seed_defaults`. -/
theorem seed_plan_eq (t : Store) (nm : Option String) (td : ℤ)
    (nw : String) :
    (seed_defaults t nm td nw).plan
      = (if t.plan.isEmpty then t.plan ++ DEFAULT_PLAN else t.plan) := rfl

/-- C5 (amended): from every starting store whose plan table holds each
seed row at most once and whose goal keys are duplicate-free (both hold
for every state the program itself can reach, and the goals table's
UNIQUE constraint forces the latter), seeding any number of times with
any display names leaves exactly one profile row, each of the 12 plan
rows at most once, and each default goal key exactly once; an existing
profile row (start date included) is never overwritten, existing goal
rows are only ever appended to, and a second seed is the identity. -/
theorem seed_defaults_idempotent (s : Store) (name name2 : Option String)
    (today today2 : ℤ) (now now2 : String)
    (hplan : ∀ r ∈ DEFAULT_PLAN, s.plan.count r ≤ 1)
    (hkeys : (s.goals.map Goal.key).Nodup) :
    ((seed_defaults s name today now).profile.isSome = true) ∧
    (∀ r ∈ DEFAULT_PLAN, (seed_defaults s name today now).plan.count r ≤ 1) ∧
    (∀ kvu ∈ DEFAULT_GOALS,
      ((seed_defaults s name today now).goals.filter
        (fun g => g.key == kvu.1)).length = 1) ∧
    (∀ p, s.profile = some p → (seed_defaults s name today now).profile = some p) ∧
    (∃ extra, (seed_defaults s name today now).goals = s.goals ++ extra) ∧
    seed_defaults (seed_defaults s name today now) name2 today2 now2
      = seed_defaults s name today now := by
  refine ⟨?_, ?_, ?_, ?_, ?_, ?_⟩
  · rw [seed_profile_eq]
    cases s.profile <;> rfl
  · rw [seed_plan_eq]
    by_cases he : s.plan.isEmpty = true
    · rw [if_pos he, List.isEmpty_iff.mp he]
      decide
    · rw [if_neg he]
      exact hplan
  · intro kvu hkv
    rw [seed_goals_eq]
    exact present_nodup_filter_length _ kvu.1
      (seedGoals_present_of_mem DEFAULT_GOALS now kvu s.goals hkv)
      (seedGoals_nodup DEFAULT_GOALS now s.goals hkeys)
  · intro p hp
    rw [seed_profile_eq, hp]
  · rw [seed_goals_eq]
    exact seedGoals_append DEFAULT_GOALS now s.goals
  · have hq : ∃ q, (seed_defaults s name today now).profile = some q := by
      rw [seed_profile_eq]
      cases s.profile with
      | none => exact ⟨_, rfl⟩
      | some p => exact ⟨p, rfl⟩
    rcases hq with ⟨q, hq⟩
    have hprof2 : (seed_defaults (seed_defaults s name today now) name2
        today2 now2).profile = (seed_defaults s name today now).profile := by
      rw [seed_profile_eq (seed_defaults s name today now), hq]
    have hplanNE : (seed_defaults s name today now).plan.isEmpty = false := by
      rw [seed_plan_eq]
      by_cases he : s.plan.isEmpty = true
      · rw [if_pos he, List.isEmpty_iff.mp he]
        rfl
      · rw [if_neg he]
        simp only [Bool.not_eq_true] at he
        exact he
    have hplan2 : (seed_defaults (seed_defaults s name today now) name2
        today2 now2).plan = (seed_defaults s name today now).plan := by
      rw [seed_plan_eq (seed_defaults s name today now)]
      rw [if_neg (by simp [hplanNE])]
    have hgoals2 : (seed_defaults (seed_defaults s name today now) name2
        today2 now2).goals = (seed_defaults s name today now).goals := by
      rw [seed_goals_eq (seed_defaults s name today now)]
      refine seedGoals_id DEFAULT_GOALS now2 _ ?_
      intro kvu hkv
      rw [seed_goals_eq]
      exact seedGoals_present_of_mem DEFAULT_GOALS now kvu s.goals hkv
    have hw : (seed_defaults (seed_defaults s name today now) name2
        today2 now2).workouts = (seed_defaults s name today now).workouts := rfl
    have hm : (seed_defaults (seed_defaults s name today now) name2
        today2 now2).meals = (seed_defaults s name today now).meals := rfl
    calc seed_defaults (seed_defaults s name today now) name2 today2 now2
        = ⟨(seed_defaults (seed_defaults s name today now) name2 today2 now2).profile,
           (seed_defaults (seed_defaults s name today now) name2 today2 now2).goals,
           (seed_defaults (seed_defaults s name today now) name2 today2 now2).workouts,
           (seed_defaults (seed_defaults s name today now) name2 today2 now2).meals,
           (seed_defaults (seed_defaults s name today now) name2 today2 now2).plan⟩ := rfl
      _ = seed_defaults s name today now := by
          rw [hprof2, hgoals2, hplan2, hw, hm]

/-- Witness for C5 (amended) from the empty store. -/
theorem seed_defaults_idempotent_witness :
    seed_defaults (seed_defaults ⟨none, [], [], [], []⟩ none 0 "t") none 0 "t"
      = seed_defaults ⟨none, [], [], [], []⟩ none 0 "t" := by
  exact (seed_defaults_idempotent ⟨none, [], [], [], []⟩ none none 0 0 "t" "t"
    (fun r hr => by simp) (by simp)).2.2.2.2.2

end Fitness
